import Mathlib

/-!
Shallow embedding of the `youtube_auto_pub` package (config.py, auth_worker.py,
oauth_automater.py, token_manager.py, uploader.py) and proofs about it.

Python strings are embedded as `String`, Python `None`-able values as `Option`,
Python exceptions as an explicit `Except` error type.  Stateful browser
interaction is embedded as a scripted sequence of page states that advances on
every click (the spec's "scripted sequence of page states").  All string
primitives used by the embedding are (re)implemented by structural recursion
over `List Char` so that every definition evaluates inside the kernel.
-/

namespace YAP

/-! ## String primitives (kernel-evaluable replacements for Python str ops) -/

/-- `charsPrefix pat l` : the characters of `pat` are a prefix of `l`. -/
def charsPrefix (pat : String) (l : List Char) : Bool :=
  pat.data.isPrefixOf l

def containsStrAux (sub : List Char) : List Char → Bool
  | [] => sub.isEmpty
  | c :: rest => sub.isPrefixOf (c :: rest) || containsStrAux sub rest

/-- Python `sub in s` (substring containment). -/
def containsStr (s sub : String) : Bool :=
  containsStrAux sub.data s.data

/-- Python `s.lower()` (ASCII-sufficient model). -/
def lowerStr (s : String) : String :=
  String.mk (s.data.map Char.toLower)

/-- Python `s.strip()`. -/
def pyStrip (s : String) : String :=
  String.mk (((s.data.dropWhile Char.isWhitespace).reverse.dropWhile Char.isWhitespace).reverse)

/-- Worker for `splitStr`; the fuel is an upper bound on the number of steps,
always instantiated with more fuel than characters so the `0` case is inert. -/
def splitStrAux (sep : List Char) : Nat → List Char → List Char → List String
  | 0, acc, rest => [String.mk (acc.reverse ++ rest)]
  | _ + 1, acc, [] => [String.mk acc.reverse]
  | fuel + 1, acc, c :: rest =>
    if sep.isPrefixOf (c :: rest) then
      String.mk acc.reverse :: splitStrAux sep fuel [] (List.drop sep.length (c :: rest))
    else
      splitStrAux sep fuel (c :: acc) rest

/-- Python `s.split(sep)` for a non-empty separator. -/
def splitStr (sep s : String) : List String :=
  match sep.data with
  | [] => [s]
  | _ => splitStrAux sep.data (s.data.length + 1) [] s.data

/-- Join a list of strings with a separator (used to model `split(sep, 1)`:
split fully, keep the head, re-join the tail). -/
def joinWith (sep : String) : List String → String
  | [] => ""
  | [s] => s
  | s :: rest => s ++ sep ++ joinWith sep rest

/-- Python `os.path.join(a, b)` (POSIX): an absolute `b` wins, otherwise a
single separator is inserted unless `a` already ends with one. -/
def osPathJoin (a b : String) : String :=
  match b.data with
  | '/' :: _ => b
  | _ =>
    if a = "" then b
    else match a.data.getLast? with
      | some '/' => a ++ b
      | _ => a ++ "/" ++ b

/-! ## Python value/exception model -/

inductive PyVal
  | str (s : String)
  | optStr (o : Option String)
  | boolV (b : Bool)
  | optBool (o : Option Bool)
deriving DecidableEq, Repr

inductive PyExc
  | attributeError (name : String)
  | valueError (msg : String)
deriving DecidableEq, Repr

/-- Python truthiness for the embedded values. -/
def pyTruthy : PyVal → Bool
  | .str s => s ≠ ""
  | .optStr (some s) => s ≠ ""
  | .optStr none => false
  | .boolV b => b
  | .optBool (some b) => b
  | .optBool none => false

/-! ## config.py — the `YouTubeConfig` dataclass (lines 13-64)

The fields below are exactly the dataclass fields declared in config.py
lines 35-59; `__post_init__` (lines 61-64) is `postInit` below. -/

structure YouTubeConfig where
  encrypt_path : String := "./encrypt"
  authorization_code_path : String := "./code.txt"
  browser_executable : Option String := none
  browser_profile_path : String := ""
  is_docker : Bool := false
  has_display : Bool := false
  headless_mode : Option Bool := none
  hf_repo_id : String := "jebin2/Data"
  hf_repo_type : String := "dataset"
  hf_token : Option String := none
  encryption_key : Option String := none
  docker_name : String := "youtube_auto_pub"
  host_network : Bool := true
deriving DecidableEq, Repr

/-- config.py lines 61-64: `__post_init__` computes `headless_mode` from
`is_docker`/`has_display` when it was left as `None`. -/
def YouTubeConfig.postInit (c : YouTubeConfig) : YouTubeConfig :=
  match c.headless_mode with
  | none => { c with headless_mode := some (c.is_docker || !c.has_display) }
  | some _ => c

/-- Python attribute access on a `YouTubeConfig` instance: the dataclass
fields are the only attributes; any other name raises `AttributeError`. -/
def YouTubeConfig.attr (c : YouTubeConfig) (name : String) : Except PyExc PyVal :=
  if name = "encrypt_path" then .ok (.str c.encrypt_path)
  else if name = "authorization_code_path" then .ok (.str c.authorization_code_path)
  else if name = "browser_executable" then .ok (.optStr c.browser_executable)
  else if name = "browser_profile_path" then .ok (.str c.browser_profile_path)
  else if name = "is_docker" then .ok (.boolV c.is_docker)
  else if name = "has_display" then .ok (.boolV c.has_display)
  else if name = "headless_mode" then .ok (.optBool c.headless_mode)
  else if name = "hf_repo_id" then .ok (.str c.hf_repo_id)
  else if name = "hf_repo_type" then .ok (.str c.hf_repo_type)
  else if name = "hf_token" then .ok (.optStr c.hf_token)
  else if name = "encryption_key" then .ok (.optStr c.encryption_key)
  else if name = "docker_name" then .ok (.str c.docker_name)
  else if name = "host_network" then .ok (.boolV c.host_network)
  else .error (.attributeError name)

/-! ## auth_worker.py — URL → authorization-code extraction (lines 98-111)

`process_auth_via_code` reads the captured artifact, HTML-unescapes it
(`html.unescape`, Python stdlib — modelled for the standard five entities,
single pass, replacement text not rescanned), extracts the query string
(`urllib.parse.urlparse(..).query`) and the first `code` value
(`urllib.parse.parse_qs`). -/

/-- Worker for `htmlUnescape`; fuel bounds the scan and always exceeds the
input length. -/
def htmlUnescapeAux : Nat → List Char → List Char
  | 0, rest => rest
  | _ + 1, [] => []
  | fuel + 1, '&' :: rest =>
    if charsPrefix "amp;" rest then '&' :: htmlUnescapeAux fuel (rest.drop 4)
    else if charsPrefix "lt;" rest then '<' :: htmlUnescapeAux fuel (rest.drop 3)
    else if charsPrefix "gt;" rest then '>' :: htmlUnescapeAux fuel (rest.drop 3)
    else if charsPrefix "quot;" rest then '"' :: htmlUnescapeAux fuel (rest.drop 5)
    else if charsPrefix "#39;" rest then '\'' :: htmlUnescapeAux fuel (rest.drop 4)
    else '&' :: htmlUnescapeAux fuel rest
  | fuel + 1, c :: rest => c :: htmlUnescapeAux fuel rest

/-- Model of Python `html.unescape` restricted to the five standard entities. -/
def htmlUnescape (s : String) : String :=
  String.mk (htmlUnescapeAux (s.data.length + 1) s.data)

/-- Model of `urllib.parse.urlparse(url).query`: the part after the first `?`
of the pre-fragment (pre-`#`) portion of the URL. -/
def urlQuery (url : String) : String :=
  let preFrag := (splitStr "#" url).headD url
  match splitStr "?" preFrag with
  | [] => ""
  | [_] => ""
  | _ :: rest => joinWith "?" rest

def hexVal? (c : Char) : Option Nat :=
  if '0' ≤ c ∧ c ≤ '9' then some (c.toNat - '0'.toNat)
  else if 'a' ≤ c ∧ c ≤ 'f' then some (c.toNat - 'a'.toNat + 10)
  else if 'A' ≤ c ∧ c ≤ 'F' then some (c.toNat - 'A'.toNat + 10)
  else none

def unquotePlusAux : List Char → List Char
  | [] => []
  | '+' :: rest => ' ' :: unquotePlusAux rest
  | '%' :: a :: b :: rest =>
    match hexVal? a, hexVal? b with
    | some ha, some hb => Char.ofNat (16 * ha + hb) :: unquotePlusAux rest
    | _, _ => '%' :: unquotePlusAux (a :: b :: rest)
  | c :: rest => c :: unquotePlusAux rest

/-- Model of the `unquote(... .replace('+', ' '))` decoding `parse_qsl`
applies to each name and value. -/
def unquotePlus (s : String) : String :=
  String.mk (unquotePlusAux s.data)

/-- Python `name_value.split('=', 1)` with the skip-rules of `parse_qsl`:
fields without `=` are dropped (`strict_parsing=False`). -/
def splitFirstEq (kv : String) : Option (String × String) :=
  match splitStr "=" kv with
  | [] => none
  | [_] => none
  | k :: rest => some (k, joinWith "=" rest)

/-- Model of `urllib.parse.parse_qsl` with default arguments: split the query
on `&`, drop empty fields, fields without `=`, and blank values
(`keep_blank_values=False`), and percent-decode names and values. -/
def parse_qsl (qs : String) : List (String × String) :=
  (splitStr "&" qs).filterMap fun nv =>
    if nv = "" then none
    else match splitFirstEq nv with
      | none => none
      | some (k, v) => if v = "" then none else some (unquotePlus k, unquotePlus v)

/-- `parse_qs(qs).get(key, [None])[0]`: the first value recorded for `key`. -/
def qsGetFirst (qs key : String) : Option String :=
  ((parse_qsl qs).find? (fun p => p.1 == key)).map (fun p => p.2)

/-- auth_worker.py lines 98-111: given the captured artifact content (already
read and `strip()`ed content arrives as `raw`), `process_auth_via_code`
raises `ValueError` on empty content, HTML-unescapes, parses the `code`
query parameter, and raises `ValueError` when none can be extracted. -/
def process_auth_via_code_extract (raw : String) : Except PyExc String :=
  let code := pyStrip raw
  if code = "" then .error (.valueError "No authorization code received")
  else
    let code := htmlUnescape code
    let q := urlQuery code
    match qsGetFirst q "code" with
    | some v =>
      if v = "" then .error (.valueError "Could not extract code from URL") else .ok v
    | none => .error (.valueError "Could not extract code from URL")

/-! ## auth_worker.py / oauth_automater.py / uploader.py — attribute accesses
on `YouTubeConfig` (claim C2).  Each definition embeds the prefix of the
source function up to and including its first accesses of config attributes;
the remainder of each function delegates to external collaborators (OAuth
client library, browser, YouTube API) and is unreachable whenever an access
raises. -/

/-- auth_worker.py lines 20-41 (`process_auth`): the first statement (line 29)
reads `config.client_secret_path` and `config.scopes`. -/
def process_auth_attrs (c : YouTubeConfig) : Except PyExc Unit := do
  let _ ← c.attr "client_secret_path"
  let _ ← c.attr "scopes"
  return ()

/-- auth_worker.py lines 44-76 (`process_auth_via_code`): line 62 reads
`config.authorization_code_path` (a real field), line 65 reads
`config.client_secret_path`, line 66 reads `config.scopes`. -/
def process_auth_via_code_attrs (c : YouTubeConfig) : Except PyExc Unit := do
  let _ ← c.attr "authorization_code_path"
  let _ ← c.attr "client_secret_path"
  let _ ← c.attr "scopes"
  return ()

/-- Python `x or <expr>` for an optional-string `x`: the fallback expression
is evaluated (and may raise) only when `x` is falsy. -/
def pyOrElse (x : Option String) (fallback : Except PyExc (Option String)) :
    Except PyExc (Option String) :=
  match x with
  | some s => if s ≠ "" then .ok (some s) else fallback
  | none => fallback

/-- oauth_automater.py lines 43-62 (`GoogleOAuthAutomator.__init__`):
line 58 `self.email = email or self.config.google_email`, line 59
`self.password = password or self.config.google_password`.  The `pure none`
continuations stand for the attribute's value and are reachable only if the
access succeeded (it never does on a `YouTubeConfig`). -/
def googleOAuthAutomatorInit (c : YouTubeConfig) (email password : Option String) :
    Except PyExc (Option String × Option String) := do
  let e ← pyOrElse email (do let _ ← c.attr "google_email"; pure none)
  let p ← pyOrElse password (do let _ ← c.attr "google_password"; pure none)
  return (e, p)

/-- uploader.py lines 165-167 (`get_service` prologue): reads `config.scopes`,
`config.token_filename`, `config.client_secret_filename` before anything
else (in particular before the service cache is consulted). -/
def get_service_attrs (c : YouTubeConfig) : Except PyExc Unit := do
  let _ ← c.attr "scopes"
  let _ ← c.attr "token_filename"
  let _ ← c.attr "client_secret_filename"
  return ()

/-! ## oauth_automater.py — `_click_account_from_chooser` (lines 196-250)

The chooser page is observed through: whether the two exact attribute
selectors (`[data-identifier="email"]`, `[data-email="email"]`) match an
element, and the `inner_text` of the list items returned by the selectors
`"ul li"`, `"ol li"` and `"li"`, in that order. -/

structure ChooserPage where
  hasDataIdentifier : Bool
  hasDataEmail : Bool
  ulLi : List String
  olLi : List String
  li : List String
deriving DecidableEq, Repr

inductive ChooserClick
  | attrSel (selector : String)
  | textItem (selector : String) (idx : Nat)
  | firstItem (selector : String)
  | noClick
deriving DecidableEq, Repr

/-- oauth_automater.py line 227: `email and email.lower() in text.lower()`. -/
def textMatch (email text : String) : Bool :=
  (email != "") && containsStr (lowerStr text) (lowerStr email)

/-- The inner loop of lines 224-233: scan the items of one selector and click
the first whose text matches; `i` is the index already scanned past. -/
def clickTextLoop (email : String) : List String → Nat → Option Nat
  | [], _ => none
  | t :: rest, i => if textMatch email t then some i else clickTextLoop email rest (i + 1)

/-- oauth_automater.py lines 196-250 (`_click_account_from_chooser`): exact
attribute selectors first (lines 204-218), then text matching over
`"ul li"`, `"ol li"`, `"li"` (lines 221-235), then the first available item
of `"ul li"` or `"li"` as last resort (lines 238-247); result is the element
clicked and the returned Bool. -/
def click_account_from_chooser (p : ChooserPage) (email : String) :
    ChooserClick × Bool :=
  if p.hasDataIdentifier then (.attrSel "data-identifier", true)
  else if p.hasDataEmail then (.attrSel "data-email", true)
  else match clickTextLoop email p.ulLi 0 with
    | some i => (.textItem "ul li" i, true)
    | none => match clickTextLoop email p.olLi 0 with
      | some i => (.textItem "ol li" i, true)
      | none => match clickTextLoop email p.li 0 with
        | some i => (.textItem "li" i, true)
        | none =>
          match p.ulLi with
          | _ :: _ => (.firstItem "ul li", true)
          | [] =>
            match p.li with
            | _ :: _ => (.firstItem "li", true)
            | [] => (.noClick, false)

/-! ## oauth_automater.py — `_handle_account_selection_and_continue`
(lines 282-548) and `authorize_oauth` (lines 100-194)

The externally-scripted page is a list of page states; every click advances
to the next state, and nothing else changes the state (sleeps and DOM reads
are pure).  A state offers exactly one of: the redirect URL in the address
bar (`redirect`), a dismissible banner (`banner`), the brand-account button
carrying `data-destination-info` (`brand`), a consent form with checkboxes
and a Continue button (`consent`), a bare Continue button
(`continueScreen`), or nothing actionable (`blank`).  Once the script is
exhausted the page stays inert (`blank`). -/

inductive Screen
  | redirect (url : String)
  | banner
  | brand
  | consent (boxes : Nat)
  | continueScreen
  | blank
deriving DecidableEq, Repr

/-- The address-bar URL of a non-redirected page (an accounts.google.com
page, which never contains `code=`). -/
def accountsPageUrl : String := "https://accounts.google.com/signin/oauth"

def Screen.pageUrl : Screen → String
  | .redirect u => u
  | _ => accountsPageUrl

def Screen.isBanner : Screen → Bool
  | .banner => true
  | _ => false

def Screen.isBrand : Screen → Bool
  | .brand => true
  | _ => false

/-- A Continue-labeled button is present on a bare Continue page and on the
consent page (lines 526-541 click it in either case). -/
def Screen.hasContinueButton : Screen → Bool
  | .continueScreen => true
  | .consent _ => true
  | _ => false

def curScreen : List Screen → Screen
  | [] => .blank
  | s :: _ => s

def advancePage : List Screen → List Screen
  | [] => []
  | _ :: t => t

/-- Outcome of the driver: the Bool returned by
`_handle_account_selection_and_continue` and the content written to
`config.authorization_code_path` by `_save_url` (lines 304-308), if any. -/
structure DriveResult where
  success : Bool
  artifact : Option String
deriving DecidableEq, Repr

/-- Lines 293-318 (`_check_redirect`): the Playwright `page.url` check and
the CDP fallback both read the current address-bar URL; a redirect is
reported exactly when it contains `code=`. -/
def checkRedirect (l : List Screen) : Option String :=
  if containsStr (curScreen l).pageUrl "code=" then some (curScreen l).pageUrl else none

/-- Lines 479-548: one bounded round of the Continue/consent loop per unit of
fuel (`max_attempts = 15`).  Per round: redirect check first (line 485),
banner dismissal (line 494) and re-check (line 497), then (a) brand button
with post-click redirect polls (lines 502-511, `continue` on miss), else
(b) checkbox ticking — which does not advance the scripted page — and
(c) the first Continue button with a post-click redirect check (lines
526-541, `break` on miss), else idle wait (lines 543-545).  Exhausting the
fuel returns `False` with nothing written (lines 547-548). -/
def handleLoop : Nat → List Screen → DriveResult
  | 0, _ => ⟨false, none⟩
  | fuel + 1, l =>
    match checkRedirect l with
    | some u => ⟨true, some u⟩
    | none =>
      let l1 := if (curScreen l).isBanner then advancePage l else l
      match checkRedirect l1 with
      | some u => ⟨true, some u⟩
      | none =>
        if (curScreen l1).isBrand then
          let l2 := advancePage l1
          match checkRedirect l2 with
          | some u => ⟨true, some u⟩
          | none => handleLoop fuel l2
        else if (curScreen l1).hasContinueButton then
          let l2 := advancePage l1
          match checkRedirect l2 with
          | some u => ⟨true, some u⟩
          | none => handleLoop fuel l2
        else
          handleLoop fuel l1

/-- oauth_automater.py lines 282-548 (`_handle_account_selection_and_continue`):
the initial brand-button phase (lines 467-477: click if present, then poll
for the redirect) followed by the 15-round loop. -/
def handle_account_selection_and_continue (l : List Screen) : DriveResult :=
  if (curScreen l).isBrand then
    let l1 := advancePage l
    match checkRedirect l1 with
    | some u => ⟨true, some u⟩
    | none => handleLoop 15 l1
  else
    handleLoop 15 l

/-- oauth_automater.py lines 100-194 (`authorize_oauth`) for a run whose
initial `#headingText` is "Choose your account or a brand account": the
credential-entry branch (lines 150-188) is skipped, line 190 calls
`_handle_account_selection_and_continue` and DISCARDS its result, and
line 191 returns `True` unconditionally; the `except` clause (lines
193-194) re-raises as `ValueError` only when the body raised, which no
bounded scripted run does. -/
def authorize_oauth_chooser (l : List Screen) : Except String (Bool × Option String) :=
  let r := handle_account_selection_and_continue l
  Except.ok (true, r.artifact)

/-! ## token_manager.py — `TokenManager.__init__` (lines 45-65) and
`download_and_decrypt` (lines 93-127) -/

/-- token_manager.py lines 45-65: `__init__` checks `_dir_exists(encrypt_path)`
(line 54) and, when the directory pre-exists, reads
`config.clear_encrypt_dir` (line 55) — not a `YouTubeConfig` field; then it
creates the directory (line 58) and raises `ValueError` when
`config.encryption_key` is falsy (lines 60-61).  The filesystem check is the
`encryptDirExists` parameter. -/
def token_manager_init (c : YouTubeConfig) (encryptDirExists : Bool) :
    Except PyExc Unit := do
  let _ ← c.attr "encrypt_path"
  if encryptDirExists then
    let _ ← c.attr "clear_encrypt_dir"
    pure ()
  let _ ← c.attr "encrypt_path"
  let key ← c.attr "encryption_key"
  if pyTruthy key then
    return ()
  else
    throw (.valueError "encryption_key is required in config or ENCRYPT_KEY env var")

/-- token_manager.py lines 93-127 (`download_and_decrypt`): the whole body is
one `try`; `hf_hub_download`, the file read and the Fernet decrypt are the
external collaborators (parameters).  Any exception — in particular a failed
remote download — is caught and the join of `encrypt_path` and the file
name is returned (lines 123-127); nothing propagates. -/
def download_and_decrypt (encryptPath fileName : String)
    (hfHubDownload : Except String String)
    (readFile : String → Except String String)
    (fernetDecrypt : String → Except String String) : String :=
  let localFilePath := osPathJoin encryptPath fileName
  match hfHubDownload with
  | .error _ => localFilePath
  | .ok downloadedPath =>
    match readFile downloadedPath with
    | .error _ => localFilePath
    | .ok data =>
      match fernetDecrypt data with
      | .error _ => localFilePath
      | .ok _ => downloadedPath

/-! ## uploader.py — the credential pipeline of `get_service` (lines 209-316)

`get_service` is embedded as the sequence of side-effecting events it
performs, over an environment resolving the values it reads: file existence
and JSON contents (`tokenExists`, `tokenParses`, `tokenClientId`,
`storedClientId`), the qualifying local client-secret candidates of lines
186-211 (`candidates`, in path order: `None` for an unparseable candidate),
and the behaviour of the external credential object (`loadOk`, fields, and
`refreshOk`).  External collaborators (auth flow, upload, service build) are
recorded as events and assumed not to raise; everything this claim set is
about (deletion, load, refresh ordering) happens before them. -/

inductive Ev
  | deleteToken
  | loadCreds
  | refresh
  | saveToken
  | runAuthFlow
  | uploadCreds
  | buildService
deriving DecidableEq, Repr

/-- The `google.oauth2.credentials.Credentials` fields `get_service` reads. -/
structure PyCreds where
  expired : Bool
  hasRefreshToken : Bool
  valid : Bool
deriving DecidableEq, Repr

structure SvcEnv where
  tokenExists : Bool
  tokenParses : Bool
  tokenClientId : Option String
  storedClientId : Option String
  candidates : List (Option String)
  loadOk : Bool
  loadedExpired : Bool
  loadedHasRefreshToken : Bool
  loadedValid : Bool
  refreshOk : Bool
  skipAuthFlow : Bool
deriving DecidableEq, Repr

/-- uploader.py lines 211-242: scan the candidate local client-secret files;
at the first candidate whose id is truthy and differs from the stored id
(or when no stored id exists), copy it over the stored secret, delete the
stored token when a stored id existed and the token file exists, update the
stored id and `break`.  Returns (stored id after, token still exists,
events). -/
def clientOverrideLoop : List (Option String) → Option String → Bool →
    Option String × Bool × List Ev
  | [], stored, tok => (stored, tok, [])
  | none :: rest, stored, tok => clientOverrideLoop rest stored tok
  | some lid :: rest, stored, tok =>
    if lid ≠ "" ∧ (stored = none ∨ stored ≠ some lid) then
      if stored ≠ none ∧ tok then (some lid, false, [Ev.deleteToken])
      else (some lid, tok, [])
    else clientOverrideLoop rest stored tok

/-- uploader.py lines 117-140 (`_is_token_for_client`): `True` when no token
file exists; `False` when the file cannot be parsed (exception branch) or
records no `client_id`; otherwise id equality. -/
def is_token_for_client (tokExists tokParses : Bool) (tokClientId : Option String)
    (clientId : String) : Bool :=
  if tokExists = false then true
  else if tokParses = false then false
  else match tokClientId with
    | none => false
    | some t => t = clientId

/-- The stored-id the loop leaves behind equals `_extract_client_id` of the
(possibly overwritten) local client secret re-read at line 245. -/
def currentClientId (e : SvcEnv) : Option String :=
  (clientOverrideLoop e.candidates e.storedClientId e.tokenExists).1

/-- uploader.py lines 244-254: `if current_client_id:` (line 246) is a Python
truthiness test, so validation runs only for a non-`None`, non-empty
extracted client id; then, when the token was not created for that id,
the token is deleted (when it exists).  An empty-string id skips the whole
check and leaves the token in place. -/
def svcTokenValidation (current : Option String) (tok1 : Bool) (e : SvcEnv) :
    Bool × List Ev :=
  match current with
  | some cid =>
    if cid ≠ "" then
      if is_token_for_client tok1 e.tokenParses e.tokenClientId cid then (tok1, [])
      else if tok1 then (false, [Ev.deleteToken])
      else (tok1, [])
    else (tok1, [])
  | none => (tok1, [])

/-- uploader.py lines 258-264: attempt a credential load only when the token
file (still) exists; a failed load leaves `creds = None`. -/
def svcLoad (tok2 : Bool) (e : SvcEnv) : Option PyCreds × List Ev :=
  if tok2 then
    if e.loadOk then
      (some ⟨e.loadedExpired, e.loadedHasRefreshToken, e.loadedValid⟩, [Ev.loadCreds])
    else (none, [Ev.loadCreds])
  else (none, [])

/-- uploader.py lines 266-277: refresh only when a credential was loaded, is
expired and carries a refresh token; success re-saves the token, failure
resets `creds` to `None`. -/
def svcRefresh (creds : Option PyCreds) (e : SvcEnv) : Option PyCreds × List Ev :=
  match creds with
  | some c =>
    if c.expired && c.hasRefreshToken then
      if e.refreshOk then (some ⟨false, c.hasRefreshToken, true⟩, [Ev.refresh, Ev.saveToken])
      else (none, [Ev.refresh])
    else (some c, [])
  | none => (none, [])

/-- uploader.py lines 279-316: run the auth flow when there is no credential
or no refresh token (returning `None` under `skip_auth_flow`); then upload
the credential files and build the service.  An invalid credential that
still has a refresh token falls through without an auth flow, as in the
source. -/
def svcFinish (creds2 : Option PyCreds) (e : SvcEnv) : List Ev × Option Unit :=
  match creds2 with
  | some c =>
    if c.valid then ([Ev.uploadCreds, Ev.buildService], some ())
    else if c.hasRefreshToken then ([Ev.uploadCreds, Ev.buildService], some ())
    else if e.skipAuthFlow then ([], none)
    else ([Ev.runAuthFlow, Ev.uploadCreds, Ev.buildService], some ())
  | none =>
    if e.skipAuthFlow then ([], none)
    else ([Ev.runAuthFlow, Ev.uploadCreds, Ev.buildService], some ())

/-- uploader.py lines 209-316 (`get_service` after the download step): event
trace and outcome (`some ()` = a service handle is returned, `none` = the
`skip_auth_flow` early return; no exception escapes this segment). -/
def get_service_pipeline (e : SvcEnv) : List Ev × Option Unit :=
  let r1 := clientOverrideLoop e.candidates e.storedClientId e.tokenExists
  let v := svcTokenValidation r1.1 r1.2.1 e
  let ld := svcLoad v.1 e
  let rf := svcRefresh ld.1 e
  let fin := svcFinish rf.1 e
  (r1.2.2 ++ v.2 ++ ld.2 ++ rf.2 ++ fin.1, fin.2)

/-! ## Theorems -/

/-- Claim C10: after construction (config.py lines 61-64, `__post_init__`),
`headless_mode` is a definite boolean: the explicitly supplied value when
one was given, otherwise `is_docker or not has_display`; never `None`. -/
theorem claim_C10_headless_mode_always_defined (c : YouTubeConfig) :
    c.postInit.headless_mode
      = some (c.headless_mode.getD (c.is_docker || !c.has_display))
    ∧ c.postInit.headless_mode ≠ none := by
  cases h : c.headless_mode <;> simp [YouTubeConfig.postInit, h]

/-- Claim C2: `YouTubeConfig` defines none of the attributes
`client_secret_path`, `token_path`, `scopes`, `token_filename`,
`google_email`, `google_password`; consequently `process_auth`,
`process_auth_via_code`, `GoogleOAuthAutomator(config)` construction and
`get_service` each raise `AttributeError` at their first access of such an
attribute, for every config value. -/
theorem claim_C2_missing_config_attributes :
    (∀ c : YouTubeConfig,
      c.attr "client_secret_path" = .error (.attributeError "client_secret_path"))
    ∧ (∀ c : YouTubeConfig, c.attr "token_path" = .error (.attributeError "token_path"))
    ∧ (∀ c : YouTubeConfig, c.attr "scopes" = .error (.attributeError "scopes"))
    ∧ (∀ c : YouTubeConfig,
      c.attr "token_filename" = .error (.attributeError "token_filename"))
    ∧ (∀ c : YouTubeConfig,
      c.attr "google_email" = .error (.attributeError "google_email"))
    ∧ (∀ c : YouTubeConfig,
      c.attr "google_password" = .error (.attributeError "google_password"))
    ∧ (∀ c : YouTubeConfig,
      process_auth_attrs c = .error (.attributeError "client_secret_path"))
    ∧ (∀ c : YouTubeConfig,
      process_auth_via_code_attrs c = .error (.attributeError "client_secret_path"))
    ∧ (∀ c : YouTubeConfig,
      googleOAuthAutomatorInit c none none = .error (.attributeError "google_email"))
    ∧ (∀ c : YouTubeConfig, get_service_attrs c = .error (.attributeError "scopes")) :=
  ⟨fun _ => rfl, fun _ => rfl, fun _ => rfl, fun _ => rfl, fun _ => rfl, fun _ => rfl,
   fun _ => rfl, fun _ => rfl, fun _ => rfl, fun _ => rfl⟩

/-- Claim C9: when `encrypt_path` names an existing directory,
`TokenManager.__init__` raises `AttributeError` for `clear_encrypt_dir`
(token_manager.py line 55); construction succeeds only when the directory
does not pre-exist and a non-empty `encryption_key` is set. -/
theorem claim_C9_token_manager_init (c : YouTubeConfig) (d : Bool) :
    (d = true → token_manager_init c d = .error (.attributeError "clear_encrypt_dir"))
    ∧ (∀ u, token_manager_init c d = .ok u →
        d = false ∧ ∃ s, c.encryption_key = some s ∧ s ≠ "") := by
  constructor
  · rintro rfl
    rfl
  · intro u h
    cases d with
    | true => exact Except.noConfusion h
    | false =>
      refine ⟨rfl, ?_⟩
      rw [show token_manager_init c false
            = (if pyTruthy (PyVal.optStr c.encryption_key) then Except.ok ()
               else Except.error (PyExc.valueError
                 "encryption_key is required in config or ENCRYPT_KEY env var")) from rfl] at h
      cases hk : c.encryption_key with
      | none =>
        rw [hk] at h
        exact Except.noConfusion h
      | some s =>
        by_cases hs : s = ""
        · subst hs
          rw [hk] at h
          exact Except.noConfusion h
        · exact ⟨s, rfl, hs⟩

/-- Witness for C9 at concrete inputs: an existing encrypt directory raises
`AttributeError`, a fresh directory with a key set succeeds. -/
theorem claim_C9_token_manager_init_witness :
    token_manager_init { encryption_key := some "k" } true
      = .error (.attributeError "clear_encrypt_dir")
    ∧ (false = false
        ∧ ∃ s, ({ encryption_key := some "k" } : YouTubeConfig).encryption_key = some s
            ∧ s ≠ "") :=
  ⟨(claim_C9_token_manager_init { encryption_key := some "k" } true).1 rfl,
   (claim_C9_token_manager_init { encryption_key := some "k" } false).2 () rfl⟩

/-- Claim C8: when the remote download fails (file not yet in the credential
store), `download_and_decrypt` does not raise and returns
`os.path.join(encrypt_path, file_name)` (token_manager.py lines 123-127). -/
theorem claim_C8_download_failure_returns_local_path
    (encryptPath fileName msg : String)
    (readFile fernetDecrypt : String → Except String String) :
    download_and_decrypt encryptPath fileName (.error msg) readFile fernetDecrypt
      = osPathJoin encryptPath fileName := rfl

/-- Claim C1 (code bug): on a scripted run that never reaches a redirect
(here: the chooser heading followed by three inert pages),
`_handle_account_selection_and_continue` exhausts its rounds, returns
`False` and writes no artifact — but `authorize_oauth` discards that result
(oauth_automater.py lines 190-191) and returns `True`, i.e. success, to its
caller, contradicting its own docstring ("True if authorization was
successful", "Raises ValueError if ... authorization fails"). -/
theorem claim_C1_authorize_oauth_reports_success_despite_failure :
    authorize_oauth_chooser [Screen.blank, Screen.blank, Screen.blank]
      = Except.ok (true, none)
    ∧ handle_account_selection_and_continue [Screen.blank, Screen.blank, Screen.blank]
      = ⟨false, none⟩ :=
  ⟨rfl, rfl⟩

/-- Claim C7: a captured artifact whose HTML-unescaped form is a URL whose
query string carries `code=ABC123` (entity-escaped or not) yields exactly
`ABC123`; when no `code` parameter can be extracted, `ValueError` is
raised (auth_worker.py lines 98-111). -/
theorem claim_C7_code_extraction (c : String) :
    process_auth_via_code_extract "http://localhost/?state=xyz&code=ABC123&foo=bar"
      = .ok "ABC123"
    ∧ process_auth_via_code_extract
        "http://localhost/?state=xyz&amp;code=ABC123&amp;foo=bar" = .ok "ABC123"
    ∧ (pyStrip c ≠ "" →
        qsGetFirst (urlQuery (htmlUnescape (pyStrip c))) "code" = some "ABC123" →
        process_auth_via_code_extract c = .ok "ABC123")
    ∧ (pyStrip c ≠ "" →
        qsGetFirst (urlQuery (htmlUnescape (pyStrip c))) "code" = none →
        process_auth_via_code_extract c
          = .error (.valueError "Could not extract code from URL")) := by
  refine ⟨rfl, rfl, ?_, ?_⟩
  · intro h1 h2
    simp [process_auth_via_code_extract, h1, h2]
  · intro h1 h2
    simp [process_auth_via_code_extract, h1, h2]

/-- Witness for C7 at concrete inputs: a URL with the `code` parameter and a
URL without one. -/
theorem claim_C7_code_extraction_witness :
    process_auth_via_code_extract "https://localhost/?code=ABC123" = .ok "ABC123"
    ∧ process_auth_via_code_extract "https://localhost/?a=b"
        = .error (.valueError "Could not extract code from URL") :=
  ⟨(claim_C7_code_extraction "https://localhost/?code=ABC123").2.2.1 (by decide) rfl,
   (claim_C7_code_extraction "https://localhost/?a=b").2.2.2 (by decide) rfl⟩

/-- The scan of lines 224-233 is the first index satisfying the text match. -/
theorem clickTextLoop_eq_findIdx (email : String) :
    ∀ (l : List String) (n : Nat),
      clickTextLoop email l n = l.findIdx? (textMatch email) n := by
  intro l
  induction l with
  | nil => intro n; simp [clickTextLoop, List.findIdx?_nil]
  | cons t rest ih =>
    intro n
    by_cases h : textMatch email t
    · simp [clickTextLoop, List.findIdx?_cons, h]
    · simp [clickTextLoop, List.findIdx?_cons, h, ih]

/-- Claim C6: with no attribute-selector match, `_click_account_from_chooser`
clicks the first list item whose text contains the email
case-insensitively, falls back to the first available item only when no
item matches, and on accounts `["a@x.com", "b@x.com"]` with target email
`"B@X.com"` clicks the second entry and returns `True`. -/
theorem claim_C6_account_chooser_selection (accounts : List String) (email : String)
    (i : Nat) :
    (accounts.findIdx? (textMatch email) = some i →
      click_account_from_chooser ⟨false, false, accounts, [], []⟩ email
        = (.textItem "ul li" i, true))
    ∧ (accounts.findIdx? (textMatch email) = none → accounts ≠ [] →
      click_account_from_chooser ⟨false, false, accounts, [], []⟩ email
        = (.firstItem "ul li", true))
    ∧ click_account_from_chooser ⟨false, false, ["a@x.com", "b@x.com"], [], []⟩ "B@X.com"
        = (.textItem "ul li" 1, true) := by
  refine ⟨?_, ?_, rfl⟩
  · intro h
    simp [click_account_from_chooser, clickTextLoop_eq_findIdx, h]
  · intro h hne
    match accounts, hne with
    | a :: rest, _ =>
      simp [click_account_from_chooser, clickTextLoop_eq_findIdx, h]

/-- Witness for C6 at the claim's concrete inputs. -/
theorem claim_C6_account_chooser_selection_witness :
    click_account_from_chooser ⟨false, false, ["a@x.com", "b@x.com"], [], []⟩ "B@X.com"
      = (.textItem "ul li" 1, true) :=
  (claim_C6_account_chooser_selection ["a@x.com", "b@x.com"] "B@X.com" 1).1 rfl

/-- Non-redirected pages never carry `code=` in their URL. -/
theorem accountsPageUrl_no_code : containsStr accountsPageUrl "code=" = false := by
  decide

/-- A round whose redirect checks all hit returns the captured URL. -/
theorem handleLoop_hit (f : Nat) (l : List Screen) (u : String)
    (h : checkRedirect l = some u) : handleLoop (f + 1) l = ⟨true, some u⟩ := by
  simp [handleLoop, h]

/-- A round seeing a bare Continue screen clicks it; when the following state
is not yet the redirect, the loop retries with one unit of fuel spent. -/
theorem handleLoop_cont_step (f : Nat) (rest : List Screen)
    (h : checkRedirect rest = none) :
    handleLoop (f + 1) (Screen.continueScreen :: rest) = handleLoop f rest := by
  have h0 : checkRedirect (Screen.continueScreen :: rest) = none := by
    simp [checkRedirect, curScreen, Screen.pageUrl, accountsPageUrl_no_code]
  simp [handleLoop, h0, h, curScreen, Screen.isBanner, Screen.isBrand,
        Screen.hasContinueButton, advancePage]

/-- A round seeing a bare Continue screen clicks it; when the following state
is the redirect, the post-click check captures it in the same round. -/
theorem handleLoop_cont_hit (f : Nat) (rest : List Screen) (u : String)
    (h : checkRedirect rest = some u) :
    handleLoop (f + 1) (Screen.continueScreen :: rest) = ⟨true, some u⟩ := by
  have h0 : checkRedirect (Screen.continueScreen :: rest) = none := by
    simp [checkRedirect, curScreen, Screen.pageUrl, accountsPageUrl_no_code]
  simp [handleLoop, h0, h, curScreen, Screen.isBanner, Screen.isBrand,
        Screen.hasContinueButton, advancePage]

/-- Any script of `k` Continue screens followed by the redirect is driven to
the redirect within `fuel > k` rounds. -/
theorem handleLoop_reaches (u : String) (hu : containsStr u "code=" = true) :
    ∀ k fuel, k < fuel →
      handleLoop fuel (List.replicate k Screen.continueScreen ++ [Screen.redirect u])
        = ⟨true, some u⟩ := by
  intro k
  induction k with
  | zero =>
    intro fuel hf
    obtain ⟨f, rfl⟩ : ∃ f, fuel = f + 1 := ⟨fuel - 1, by omega⟩
    apply handleLoop_hit
    simp [checkRedirect, curScreen, Screen.pageUrl, hu]
  | succ j ih =>
    intro fuel hf
    obtain ⟨f, rfl⟩ : ∃ f, fuel = f + 1 := ⟨fuel - 1, by omega⟩
    rw [List.replicate_succ, List.cons_append]
    cases j with
    | zero =>
      apply handleLoop_cont_hit
      simp [checkRedirect, curScreen, Screen.pageUrl, hu]
    | succ m =>
      rw [handleLoop_cont_step]
      · exact ih f (by omega)
      · rw [List.replicate_succ, List.cons_append]
        simp [checkRedirect, curScreen, Screen.pageUrl, accountsPageUrl_no_code]

/-- Claim C3: for every redirect URL containing `code=` and every number
`k ≤ 14` of interposed Continue screens,
`_handle_account_selection_and_continue` terminates within the 15-round
bound, writes exactly that URL to `config.authorization_code_path`, and
returns `True`. -/
theorem claim_C3_driver_captures_redirect (u : String) (k : Nat)
    (hu : containsStr u "code=" = true) (hk : k ≤ 14) :
    handle_account_selection_and_continue
        (List.replicate k Screen.continueScreen ++ [Screen.redirect u])
      = ⟨true, some u⟩ := by
  have hb : (curScreen
      (List.replicate k Screen.continueScreen ++ [Screen.redirect u])).isBrand = false := by
    cases k with
    | zero => simp [curScreen, Screen.isBrand]
    | succ n => simp [List.replicate_succ, curScreen, Screen.isBrand]
  unfold handle_account_selection_and_continue
  rw [if_neg (by simp [hb])]
  exact handleLoop_reaches u hu k 15 (by omega)

/-- Witness for C3: two Continue screens, then the redirect. -/
theorem claim_C3_driver_captures_redirect_witness :
    handle_account_selection_and_continue
        (List.replicate 2 Screen.continueScreen
          ++ [Screen.redirect "http://localhost/?code=XYZ"])
      = ⟨true, some "http://localhost/?code=XYZ"⟩ :=
  claim_C3_driver_captures_redirect "http://localhost/?code=XYZ" 2 (by decide) (by omega)

/-- The candidate-scan of lines 211-242 either leaves the token untouched and
emits no event, or emits exactly one token deletion. -/
theorem clientOverrideLoop_evs (cands : List (Option String)) (stored : Option String)
    (tok : Bool) :
    (clientOverrideLoop cands stored tok).2.2 = []
    ∨ (clientOverrideLoop cands stored tok).2.2 = [Ev.deleteToken] := by
  induction cands generalizing stored tok with
  | nil => left; rfl
  | cons c rest ih =>
    cases c with
    | none => simpa [clientOverrideLoop] using ih stored tok
    | some lid =>
      simp only [clientOverrideLoop]
      split_ifs with h1 h2
      · right; rfl
      · left; rfl
      · exact ih stored tok

/-- With the token file present, the candidate-scan either keeps it (no
event) or deletes it (exactly the deletion event). -/
theorem clientOverrideLoop_true_cases (cands : List (Option String))
    (stored : Option String) :
    ((clientOverrideLoop cands stored true).2.1 = true
      ∧ (clientOverrideLoop cands stored true).2.2 = [])
    ∨ ((clientOverrideLoop cands stored true).2.1 = false
      ∧ (clientOverrideLoop cands stored true).2.2 = [Ev.deleteToken]) := by
  induction cands generalizing stored with
  | nil => left; exact ⟨rfl, rfl⟩
  | cons c rest ih =>
    cases c with
    | none => simpa [clientOverrideLoop] using ih stored
    | some lid =>
      simp only [clientOverrideLoop]
      split_ifs with h1 h2
      · right; exact ⟨rfl, rfl⟩
      · left; exact ⟨rfl, rfl⟩
      · exact ih stored

/-- Line 244-254 validation emits at most one deletion. -/
theorem svcTokenValidation_evs (current : Option String) (tok1 : Bool) (e : SvcEnv) :
    (svcTokenValidation current tok1 e).2 = []
    ∨ (svcTokenValidation current tok1 e).2 = [Ev.deleteToken] := by
  cases current with
  | none => left; rfl
  | some cid =>
    simp only [svcTokenValidation]
    split_ifs <;> simp

/-- A load attempt happens exactly when the token file still exists. -/
theorem svcLoad_evs (tok2 : Bool) (e : SvcEnv) :
    (svcLoad tok2 e).2 = [] ∨ (svcLoad tok2 e).2 = [Ev.loadCreds] := by
  cases tok2 with
  | false => left; rfl
  | true =>
    by_cases h : e.loadOk
    · right; simp [svcLoad, h]
    · right; simp [svcLoad, h]

/-- A credential emerges from the load stage only when the token file still
existed and the load succeeded, and it is the loaded credential. -/
theorem svcLoad_some (tok2 : Bool) (e : SvcEnv) (c : PyCreds)
    (h : (svcLoad tok2 e).1 = some c) :
    tok2 = true ∧ e.loadOk = true
    ∧ c = ⟨e.loadedExpired, e.loadedHasRefreshToken, e.loadedValid⟩
    ∧ (svcLoad tok2 e).2 = [Ev.loadCreds] := by
  cases tok2 with
  | false => exact Option.noConfusion h
  | true =>
    by_cases hl : e.loadOk
    · simp [svcLoad, hl] at h
      exact ⟨rfl, by simp [hl], h.symm, by simp [svcLoad, hl]⟩
    · simp [svcLoad, hl] at h

/-- The refresh event occurs only for an existing, expired credential with a
refresh token (uploader.py line 267). -/
theorem svcRefresh_mem (creds : Option PyCreds) (e : SvcEnv)
    (h : Ev.refresh ∈ (svcRefresh creds e).2) :
    ∃ c, creds = some c ∧ c.expired = true ∧ c.hasRefreshToken = true := by
  cases creds with
  | none => simp [svcRefresh] at h
  | some c =>
    by_cases hce : c.expired && c.hasRefreshToken
    · exact ⟨c, rfl, by simpa using hce⟩
    · simp [svcRefresh, hce] at h

/-- The final upload/build/auth-flow stage never refreshes. -/
theorem svcFinish_no_refresh (creds2 : Option PyCreds) (e : SvcEnv) :
    Ev.refresh ∉ (svcFinish creds2 e).1 := by
  cases creds2 with
  | none => by_cases h : e.skipAuthFlow <;> simp [svcFinish, h]
  | some c =>
    by_cases h1 : c.valid
    · simp [svcFinish, h1]
    · by_cases h2 : c.hasRefreshToken
      · simp [svcFinish, h1, h2]
      · by_cases h3 : e.skipAuthFlow <;> simp [svcFinish, h1, h2, h3]

/-- Claim C5: a loaded credential whose expiry flag is false is never
refreshed, and the refresh call happens only when a credential was loaded
(the token file existed and parsed as a credential), is expired, and
carries a refresh token. -/
theorem claim_C5_refresh_only_when_expired (e : SvcEnv) :
    (e.loadedExpired = false → Ev.refresh ∉ (get_service_pipeline e).1)
    ∧ (Ev.refresh ∈ (get_service_pipeline e).1 →
        Ev.loadCreds ∈ (get_service_pipeline e).1
        ∧ e.loadOk = true ∧ e.loadedExpired = true
        ∧ e.loadedHasRefreshToken = true) := by
  have main : Ev.refresh ∈ (get_service_pipeline e).1 →
      Ev.loadCreds ∈ (get_service_pipeline e).1
      ∧ e.loadOk = true ∧ e.loadedExpired = true ∧ e.loadedHasRefreshToken = true := by
    intro hmem
    simp only [get_service_pipeline, List.mem_append] at hmem ⊢
    rcases hmem with ((((h | h) | h) | h) | h)
    · rcases clientOverrideLoop_evs e.candidates e.storedClientId e.tokenExists with
        hev | hev <;> rw [hev] at h <;> simp at h
    · rcases svcTokenValidation_evs _ _ e with hev | hev <;> rw [hev] at h <;> simp at h
    · rcases svcLoad_evs _ e with hev | hev <;> rw [hev] at h <;> simp at h
    · obtain ⟨c, hc, hce, hcr⟩ := svcRefresh_mem _ e h
      obtain ⟨htok, hld, hcval, hevs⟩ := svcLoad_some _ e c hc
      refine ⟨?_, hld, ?_, ?_⟩
      · left; left; right
        rw [hevs]; simp
      · rw [hcval] at hce; exact hce
      · rw [hcval] at hcr; exact hcr
    · exact absurd h (svcFinish_no_refresh _ e)
  refine ⟨?_, main⟩
  intro hexp hmem
  obtain ⟨_, _, hexp2, _⟩ := main hmem
  rw [hexp] at hexp2
  exact Bool.noConfusion hexp2

/-- Witness for C5: an unexpired credential triggers no refresh; an expired
one with a refresh token does, and only under those conditions. -/
theorem claim_C5_refresh_only_when_expired_witness :
    Ev.refresh ∉ (get_service_pipeline
      ⟨true, true, some "111", some "111", [], true, false, true, true, true, false⟩).1
    ∧ (Ev.loadCreds ∈ (get_service_pipeline
        ⟨true, true, some "111", some "111", [], true, true, true, false, true, false⟩).1
      ∧ True = true ∧ True = true ∧ True = true) := by
  constructor
  · exact (claim_C5_refresh_only_when_expired _).1 rfl
  · have := (claim_C5_refresh_only_when_expired
      ⟨true, true, some "111", some "111", [], true, true, true, false, true, false⟩).2
      (by decide)
    exact ⟨this.1, by decide, by decide, by decide⟩

/-- Claim C4 (amended): whenever the stored token's recorded client id
differs from a non-empty (Python-truthy) client id extracted from the
current client secret, `get_service` deletes the token before any load or
refresh of that credential — no load and no refresh event occurs at all —
and the mismatch leads to the authentication flow rather than an error
(the pipeline completes and returns a service).  The non-emptiness
hypothesis is forced by `if current_client_id:` at uploader.py line 246:
with an empty extracted id the validation is skipped entirely (see the
counterexample below). -/
theorem claim_C4_client_mismatch_deletes_token (e : SvcEnv) (tid cid : String)
    (h1 : e.tokenExists = true) (h2 : e.tokenParses = true)
    (h3 : e.tokenClientId = some tid) (h4 : currentClientId e = some cid)
    (h5 : tid ≠ cid) (h6 : e.skipAuthFlow = false) (h7 : cid ≠ "") :
    Ev.deleteToken ∈ (get_service_pipeline e).1
    ∧ Ev.loadCreds ∉ (get_service_pipeline e).1
    ∧ Ev.refresh ∉ (get_service_pipeline e).1
    ∧ Ev.runAuthFlow ∈ (get_service_pipeline e).1
    ∧ (get_service_pipeline e).2 = some () := by
  have h4' : (clientOverrideLoop e.candidates e.storedClientId true).1 = some cid := by
    rw [← h1]; exact h4
  have hcases := clientOverrideLoop_true_cases e.candidates e.storedClientId
  have hval : is_token_for_client true e.tokenParses e.tokenClientId cid = false := by
    simp [is_token_for_client, h2, h3, h5]
  simp only [get_service_pipeline, h1]
  rcases hcases with ⟨htok, hevs⟩ | ⟨htok, hevs⟩
  · rw [h4', htok, hevs]
    have hv : svcTokenValidation (some cid) true e = (false, [Ev.deleteToken]) := by
      simp [svcTokenValidation, hval, h7]
    rw [hv]
    simp [svcLoad, svcRefresh, svcFinish, h6]
  · rw [h4', htok, hevs]
    have hv : svcTokenValidation (some cid) false e = (false, []) := by
      simp [svcTokenValidation, is_token_for_client, h7]
    rw [hv]
    simp [svcLoad, svcRefresh, svcFinish, h6]

/-- Witness for C4: stored token for client `"111"`, current client secret
for client `"222"`. -/
theorem claim_C4_client_mismatch_deletes_token_witness :
    Ev.deleteToken ∈ (get_service_pipeline
      ⟨true, true, some "111", some "222", [], true, false, true, true, true, false⟩).1
    ∧ Ev.loadCreds ∉ (get_service_pipeline
      ⟨true, true, some "111", some "222", [], true, false, true, true, true, false⟩).1
    ∧ Ev.refresh ∉ (get_service_pipeline
      ⟨true, true, some "111", some "222", [], true, false, true, true, true, false⟩).1
    ∧ Ev.runAuthFlow ∈ (get_service_pipeline
      ⟨true, true, some "111", some "222", [], true, false, true, true, true, false⟩).1
    ∧ (get_service_pipeline
      ⟨true, true, some "111", some "222", [], true, false, true, true, true, false⟩).2
      = some () :=
  claim_C4_client_mismatch_deletes_token
    ⟨true, true, some "111", some "222", [], true, false, true, true, true, false⟩
    "111" "222" rfl rfl rfl rfl (by decide) rfl (by decide)

/-- Counterexample refuting C4 as originally stated: token recorded for
client `"111"` while the current client secret's extracted id is the empty
string — the ids differ, yet `if current_client_id:` (uploader.py line
246) is falsy, validation is skipped, nothing is deleted, and the
mismatched token is loaded and even refreshed. -/
theorem claim_C4_empty_client_id_counterexample :
    currentClientId
      ⟨true, true, some "111", some "", [], true, true, true, true, true, false⟩
      = some ""
    ∧ some "111" ≠ some ""
    ∧ Ev.deleteToken ∉ (get_service_pipeline
      ⟨true, true, some "111", some "", [], true, true, true, true, true, false⟩).1
    ∧ Ev.loadCreds ∈ (get_service_pipeline
      ⟨true, true, some "111", some "", [], true, true, true, true, true, false⟩).1
    ∧ Ev.refresh ∈ (get_service_pipeline
      ⟨true, true, some "111", some "", [], true, true, true, true, true, false⟩).1 := by
  refine ⟨rfl, by decide, ?_, ?_, ?_⟩ <;> decide

end YAP
